import Mathlib

/-!
Shallow embedding of the sturdins repository (GNSS/INS estimator core) in
Lean 4, modelling the C++ `double` arithmetic over the real numbers.

The embedded code is:
  * `src/src/strapdown.cpp` — the `Strapdown` mechanization engine
    (constructors, setters, `Mechanize`, `GravityVector`, `EarthRateVector`,
    `TransportRateVector`);
  * `src/include/sturdins/least-squares.hpp` — only declares `GaussNewton`;
    its body is not part of the visible sources, so its iteration/return
    discipline is modelled from the design document;
  * `src/tests/test_sim_ins.cpp` — the simulation test driver, whose
    GNSS-update gating expression `~(i % 20)` is embedded exactly
    (two's-complement bitwise NOT on a non-negative `int`).
-/

noncomputable section

namespace Sturdins

/-- Real 3-vector, modelling `Eigen::Vector3d`. -/
structure Vec3 where
  x : ℝ
  y : ℝ
  z : ℝ

/-- Real 4-vector holding a scalar-first quaternion, modelling the
`Eigen::Vector4d q_b_l_` member. -/
structure Quat where
  w : ℝ
  x : ℝ
  y : ℝ
  z : ℝ

/-- Real 3×3 matrix with explicit entries, modelling `Eigen::Matrix3d`. -/
structure Mat3 where
  m00 : ℝ
  m01 : ℝ
  m02 : ℝ
  m10 : ℝ
  m11 : ℝ
  m12 : ℝ
  m20 : ℝ
  m21 : ℝ
  m22 : ℝ

/-- Componentwise sum of two 3-vectors. -/
def Vec3.add (a b : Vec3) : Vec3 :=
  ⟨a.x + b.x, a.y + b.y, a.z + b.z⟩

/-- Componentwise difference of two 3-vectors. -/
def Vec3.sub (a b : Vec3) : Vec3 :=
  ⟨a.x - b.x, a.y - b.y, a.z - b.z⟩

/-- Scalar multiple of a 3-vector. -/
def Vec3.smul (c : ℝ) (a : Vec3) : Vec3 :=
  ⟨c * a.x, c * a.y, c * a.z⟩

/-- Squared Euclidean norm of a 3-vector. -/
def Vec3.normSq (a : Vec3) : ℝ :=
  a.x ^ 2 + a.y ^ 2 + a.z ^ 2

/-- Euclidean norm of a 3-vector, modelling Eigen's `.norm()`. -/
def Vec3.norm (a : Vec3) : ℝ :=
  Real.sqrt a.normSq

/-- Matrix–vector product, modelling Eigen's `M * v`. -/
def Mat3.mulVec (M : Mat3) (v : Vec3) : Vec3 :=
  ⟨M.m00 * v.x + M.m01 * v.y + M.m02 * v.z,
   M.m10 * v.x + M.m11 * v.y + M.m12 * v.z,
   M.m20 * v.x + M.m21 * v.y + M.m22 * v.z⟩

/-- Matrix transpose, modelling Eigen's `.transpose()`. -/
def Mat3.transpose (M : Mat3) : Mat3 :=
  ⟨M.m00, M.m10, M.m20, M.m01, M.m11, M.m21, M.m02, M.m12, M.m22⟩

/-- Squared Euclidean norm of a quaternion's four components. -/
def Quat.normSq (q : Quat) : ℝ :=
  q.w ^ 2 + q.x ^ 2 + q.y ^ 2 + q.z ^ 2

/-- Euclidean norm of a quaternion's four components, modelling
Eigen's `.norm()` on the 4-vector. -/
def Quat.norm (q : Quat) : ℝ :=
  Real.sqrt q.normSq

/-- Componentwise division of a quaternion by a scalar, modelling
`q_b_l_ /= q_b_l_.norm()`. -/
def Quat.divScalar (q : Quat) (c : ℝ) : Quat :=
  ⟨q.w / c, q.x / c, q.y / c, q.z / c⟩

/-! WGS-84 constants used through `navtools`. -/

/-- Equatorial radius of the WGS-84 ellipsoid [m] (`navtools::WGS84_R0`). -/
def WGS84_R0 : ℝ := 6378137.0

/-- First eccentricity squared of the WGS-84 ellipsoid
(`navtools::WGS84_E2`). -/
def WGS84_E2 : ℝ := 0.0066943799901413165

/-- Earth rotation rate [rad/s] (`navtools::WGS84_OMEGA`). -/
def WGS84_OMEGA : ℝ := 7.292115e-5

/-- Flattening of the WGS-84 ellipsoid (`navtools::WGS84_F`). -/
def WGS84_F : ℝ := 0.0033528106647474805

/-- Polar radius of the WGS-84 ellipsoid [m] (`navtools::WGS84_RP`). -/
def WGS84_RP : ℝ := 6356752.31425

/-- Earth gravitational parameter [m^3/s^2] (`navtools::WGS84_MU`). -/
def WGS84_MU : ℝ := 3.986005e14

/-- Member `X1ME2_ = 1.0 - navtools::WGS84_E2`, set in the constructors. -/
def X1ME2 : ℝ := 1 - WGS84_E2

/-- Member `wR0sqRpMu_ = Ω²·R0²·Rp/μ`, set in the constructors. -/
def wR0sqRpMu : ℝ :=
  WGS84_OMEGA * WGS84_OMEGA * WGS84_R0 * WGS84_R0 * WGS84_RP / WGS84_MU

/-! Attitude conversions from the external `navtools` library
(`euler2quat`, `quat2dcm`, `dcm2quat`); these are the standard
aerospace-sequence formulas that library implements. -/

/-- Standard ZYX Euler-angles-to-quaternion conversion (scalar first),
modelling `navtools::euler2quat`. -/
def euler2quat (r p y : ℝ) : Quat :=
  ⟨Real.cos (r / 2) * Real.cos (p / 2) * Real.cos (y / 2) +
     Real.sin (r / 2) * Real.sin (p / 2) * Real.sin (y / 2),
   Real.sin (r / 2) * Real.cos (p / 2) * Real.cos (y / 2) -
     Real.cos (r / 2) * Real.sin (p / 2) * Real.sin (y / 2),
   Real.cos (r / 2) * Real.sin (p / 2) * Real.cos (y / 2) +
     Real.sin (r / 2) * Real.cos (p / 2) * Real.sin (y / 2),
   Real.cos (r / 2) * Real.cos (p / 2) * Real.sin (y / 2) -
     Real.sin (r / 2) * Real.sin (p / 2) * Real.cos (y / 2)⟩

/-- Standard scalar-first quaternion-to-DCM conversion, modelling
`navtools::quat2dcm`. -/
def quat2dcm (q : Quat) : Mat3 :=
  ⟨q.w ^ 2 + q.x ^ 2 - q.y ^ 2 - q.z ^ 2,
   2 * (q.x * q.y - q.w * q.z),
   2 * (q.x * q.z + q.w * q.y),
   2 * (q.x * q.y + q.w * q.z),
   q.w ^ 2 - q.x ^ 2 + q.y ^ 2 - q.z ^ 2,
   2 * (q.y * q.z - q.w * q.x),
   2 * (q.x * q.z - q.w * q.y),
   2 * (q.y * q.z + q.w * q.x),
   q.w ^ 2 - q.x ^ 2 - q.y ^ 2 + q.z ^ 2⟩

/-- Standard trace-form DCM-to-quaternion conversion, modelling
`navtools::dcm2quat`. -/
def dcm2quat (C : Mat3) : Quat :=
  let qw := 0.5 * Real.sqrt (1 + C.m00 + C.m11 + C.m22)
  ⟨qw,
   (C.m21 - C.m12) / (4 * qw),
   (C.m02 - C.m20) / (4 * qw),
   (C.m10 - C.m01) / (4 * qw)⟩

/-! The `Strapdown` navigation state.  Besides the kinematic state
(position, velocity, attitude quaternion and cached DCM) it carries the two
member cells that the constructors zero-initialize and no method ever
writes afterwards: `g_(1)` (east gravity, the assignment is commented out
in `GravityVector`) and `w_ie_n_(1)` (east Earth rate, the assignment is
commented out in `EarthRateVector`). -/

/-- Navigation state of the `Strapdown` class. -/
structure Strapdown where
  phi : ℝ
  lam : ℝ
  h : ℝ
  vn : ℝ
  ve : ℝ
  vd : ℝ
  q : Quat
  C : Mat3
  gE : ℝ
  wieE : ℝ

/-- Common trigonometric subexpression `t = 1.0 - WGS84_E2 * sLsq_`
computed at the top of `Mechanize`. -/
def tOf (phi : ℝ) : ℝ :=
  1 - WGS84_E2 * Real.sin phi ^ 2

/-- Subexpression `sqt = std::sqrt(t)` of `Mechanize`. -/
def sqtOf (phi : ℝ) : ℝ :=
  Real.sqrt (tOf phi)

/-- Transverse radius of curvature `Re_ = WGS84_R0 / sqt` as `Mechanize`
computes it. -/
def Re_ (phi : ℝ) : ℝ :=
  WGS84_R0 / sqtOf phi

/-- Meridian radius of curvature `Rn_ = WGS84_R0 * X1ME2_ / (t * t / sqt)`
as `Mechanize` computes it. -/
def Rn_ (phi : ℝ) : ℝ :=
  WGS84_R0 * X1ME2 / (tOf phi * tOf phi / sqtOf phi)

/-- Somigliana normal gravity
`g0_ = 9.7803253359 * ((1 + 0.001931853 * sLsq_) / sqt)` as `Mechanize`
computes it. -/
def g0Of (phi : ℝ) : ℝ :=
  9.7803253359 * ((1 + 0.001931853 * Real.sin phi ^ 2) / sqtOf phi)

/-- Body of `Strapdown::GravityVector`: writes `g_(0)` and `g_(2)` from
latitude and altitude, leaving the east cell `g_(1)` (here `gE`) at its
previous value.  `hR0sq = (h/R0)^2`. -/
def GravityVector (phi h gE : ℝ) : Vec3 :=
  ⟨-8.08e-9 * h * Real.sin (2 * phi),
   gE,
   g0Of phi *
     (1 -
       (2 * h / WGS84_R0) *
         (1 + WGS84_F * (1 - 2 * Real.sin phi ^ 2) + wR0sqRpMu) +
       3 * (h / WGS84_R0) ^ 2)⟩

/-- Body of `Strapdown::EarthRateVector`: writes `w_ie_n_(0)` and
`w_ie_n_(2)` from latitude, leaving the east cell (here `wieE`) at its
previous value. -/
def EarthRateVector (phi wieE : ℝ) : Vec3 :=
  ⟨WGS84_OMEGA * Real.cos phi, wieE, WGS84_OMEGA * Real.sin phi⟩

/-- Body of `Strapdown::TransportRateVector`:
`w_en_n_ = [ve/He, -vn/Hn, -(ve/He)·tanφ]` with `He = Re_ + h`,
`Hn = Rn_ + h`, `tL_ = sL_/cL_`. -/
def TransportRateVector (phi h vn ve : ℝ) : Vec3 :=
  ⟨ve / (Re_ phi + h),
   -vn / (Rn_ phi + h),
   -(ve / (Re_ phi + h)) * (Real.sin phi / Real.cos phi)⟩

/-- Quaternion update `q_b_l_ = qdot * q_b_l_` of `Mechanize`, where `qdot`
is the 4×4 matrix built from `cgamma` and the scaled rotation vector
`psi`. -/
def quatUpdate (cgamma : ℝ) (psi : Vec3) (q : Quat) : Quat :=
  ⟨cgamma * q.w - psi.x * q.x - psi.y * q.y - psi.z * q.z,
   psi.x * q.w + cgamma * q.x + psi.z * q.y - psi.y * q.z,
   psi.y * q.w - psi.z * q.x + cgamma * q.y + psi.x * q.z,
   psi.z * q.w + psi.y * q.x - psi.x * q.y + cgamma * q.z⟩

/-- One call of `Strapdown::Mechanize(wb, fb, dt)`, translated line by line
from `src/src/strapdown.cpp`. -/
def Mechanize (s : Strapdown) (wb fb : Vec3) (dt : ℝ) : Strapdown :=
  let cL := Real.cos s.phi
  let He := Re_ s.phi + s.h
  let Hn := Rn_ s.phi + s.h
  let g := GravityVector s.phi s.h s.gE
  let w_ie_n := EarthRateVector s.phi s.wieE
  let w_en_n := TransportRateVector s.phi s.h s.vn s.ve
  let we := Vec3.add w_ie_n (Vec3.smul 2 w_en_n)
  let psi0 := Vec3.smul dt (Vec3.sub wb (Mat3.mulVec s.C.transpose (Vec3.add w_ie_n w_en_n)))
  let gamma := 0.5 * psi0.norm
  let cgamma := Real.cos gamma
  let psi :=
    if gamma < 1e-5 then Vec3.smul 0.5 psi0
    else Vec3.smul (0.5 * Real.sin gamma / gamma) psi0
  let q1 := quatUpdate cgamma psi s.q
  let q2 := q1.divScalar q1.norm
  let fn := Mat3.mulVec s.C fb
  let dv_n := (fn.x + g.x - (we.y * s.vd - we.z * s.ve)) * dt
  let dv_e := (fn.y + g.y - (we.x * s.vd - we.z * s.vn)) * dt
  let dv_d := (fn.z + g.z - (we.x * s.ve - we.y * s.vn)) * dt
  { phi := s.phi + (s.vn + 0.5 * dv_n) / Hn * dt
    lam := s.lam + (s.ve + 0.5 * dv_e) / (He * cL) * dt
    h := s.h - (s.vd + 0.5 * dv_d) * dt
    vn := s.vn + dv_n
    ve := s.ve + dv_e
    vd := s.vd + dv_d
    q := q2
    C := quat2dcm q2
    gE := s.gE
    wieE := s.wieE }

/-- The nine-argument `Strapdown` constructor: stores position and
velocity, zero-initializes `g_` and `w_ie_n_`, and derives the attitude
quaternion and DCM from the Euler angles. -/
def StrapdownInit (lat lon alt veln vele veld roll pitch yaw : ℝ) : Strapdown :=
  { phi := lat
    lam := lon
    h := alt
    vn := veln
    ve := vele
    vd := veld
    q := euler2quat roll pitch yaw
    C := quat2dcm (euler2quat roll pitch yaw)
    gE := 0
    wieE := 0 }

/-- `Strapdown::SetPosition`. -/
def SetPosition (s : Strapdown) (lat lon alt : ℝ) : Strapdown :=
  { s with phi := lat, lam := lon, h := alt }

/-- `Strapdown::SetVelocity`. -/
def SetVelocity (s : Strapdown) (veln vele veld : ℝ) : Strapdown :=
  { s with vn := veln, ve := vele, vd := veld }

/-- Euler-angle overload of `Strapdown::SetAttitude`: sets the quaternion
from the angles and refreshes the DCM from that quaternion. -/
def SetAttitudeEuler (s : Strapdown) (roll pitch yaw : ℝ) : Strapdown :=
  { s with q := euler2quat roll pitch yaw
           C := quat2dcm (euler2quat roll pitch yaw) }

/-- Matrix overload of `Strapdown::SetAttitude`: stores the matrix and
derives the quaternion from it. -/
def SetAttitudeDcm (s : Strapdown) (Cnew : Mat3) : Strapdown :=
  { s with C := Cnew, q := dcm2quat Cnew }

/-! Sample concrete inputs used to instantiate the theorems below. -/

/-- Zero 3-vector. -/
def zero3 : Vec3 := ⟨0, 0, 0⟩

/-- Level state at the equator: zero position and velocity, identity
attitude, constructor-initialized east cells. -/
def levelState : Strapdown :=
  { phi := 0, lam := 0, h := 0, vn := 0, ve := 0, vd := 0,
    q := ⟨1, 0, 0, 0⟩, C := ⟨1, 0, 0, 0, 1, 0, 0, 0, 1⟩, gE := 0, wieE := 0 }

/-! Helper lemmas for the attitude-integration step. -/

/-- The 4×4 update matrix of `Mechanize` is a quaternion right-product, so
it scales the squared norm by `cgamma² + ‖psi‖²` (Euler's four-square
identity). -/
lemma quatUpdate_normSq (a : ℝ) (p : Vec3) (q : Quat) :
    (quatUpdate a p q).normSq = (a ^ 2 + p.normSq) * q.normSq := by
  simp only [quatUpdate, Quat.normSq, Vec3.normSq]
  ring

/-- Squared norm of a scalar multiple of a 3-vector. -/
lemma Vec3.normSq_smul (c : ℝ) (v : Vec3) :
    (Vec3.smul c v).normSq = c ^ 2 * v.normSq := by
  simp only [Vec3.smul, Vec3.normSq]
  ring

/-- Squared norms of 3-vectors are nonnegative. -/
lemma Vec3.normSq_nonneg (v : Vec3) : 0 ≤ v.normSq := by
  simp only [Vec3.normSq]
  positivity

/-- Dividing a quaternion's components by its Euclidean norm yields squared
norm one, provided the squared norm is positive. -/
lemma Quat.divScalar_norm_normSq (q : Quat) (h : 0 < q.normSq) :
    (q.divScalar q.norm).normSq = 1 := by
  have hrw : (q.divScalar q.norm).normSq = q.normSq / q.norm ^ 2 := by
    simp only [Quat.divScalar, Quat.normSq]
    ring
  rw [hrw, Quat.norm, Real.sq_sqrt h.le]
  exact div_self (ne_of_gt h)

/-- The squared-norm gain `cgamma² + ‖psi‖²` of the attitude update is
positive in both branches of the 1e-5 threshold. -/
lemma updateGain_pos (v : Vec3) (gamma : ℝ) (hg : gamma = 0.5 * v.norm) :
    0 < Real.cos gamma ^ 2 +
      (if gamma < 1e-5 then Vec3.smul 0.5 v
       else Vec3.smul (0.5 * Real.sin gamma / gamma) v).normSq := by
  have hS : 0 ≤ v.normSq := Vec3.normSq_nonneg v
  split_ifs with hb
  · rw [Vec3.normSq_smul]
    rcases eq_or_lt_of_le hS with h0 | h0
    · have hn : v.norm = 0 := by rw [Vec3.norm, ← h0, Real.sqrt_zero]
      rw [hg, hn, ← h0]
      norm_num [Real.cos_zero]
    · nlinarith [sq_nonneg (Real.cos gamma), h0]
  · push_neg at hb
    have hgpos : 0 < gamma := lt_of_lt_of_le (by norm_num) hb
    have hsq : Real.sqrt v.normSq ^ 2 = v.normSq := Real.sq_sqrt hS
    have hnorm : Real.sqrt v.normSq = 2 * gamma := by
      rw [Vec3.norm] at hg
      linarith
    have hS4 : v.normSq = 4 * gamma ^ 2 := by
      rw [← hsq, hnorm]
      ring
    rw [Vec3.normSq_smul, hS4]
    have hscale : (0.5 * Real.sin gamma / gamma) ^ 2 * (4 * gamma ^ 2) =
        Real.sin gamma ^ 2 := by
      field_simp
      ring
    rw [hscale]
    nlinarith [Real.sin_sq_add_cos_sq gamma]

/-- Attitude step of `Mechanize` in closed form: left-multiplying the update
matrix and renormalizing yields a unit-normSq quaternion for any rotation
vector, provided the incoming quaternion has unit squared norm. -/
lemma attitude_step_normSq (v : Vec3) (q : Quat) (hq : q.normSq = 1) :
    ((quatUpdate (Real.cos (0.5 * v.norm))
        (if 0.5 * v.norm < 1e-5 then Vec3.smul 0.5 v
         else Vec3.smul (0.5 * Real.sin (0.5 * v.norm) / (0.5 * v.norm)) v)
        q).divScalar
      (quatUpdate (Real.cos (0.5 * v.norm))
        (if 0.5 * v.norm < 1e-5 then Vec3.smul 0.5 v
         else Vec3.smul (0.5 * Real.sin (0.5 * v.norm) / (0.5 * v.norm)) v)
        q).norm).normSq = 1 := by
  apply Quat.divScalar_norm_normSq
  rw [quatUpdate_normSq, hq, mul_one]
  exact updateGain_pos v (0.5 * v.norm) rfl

/-- After `Mechanize`, the quaternion has unit squared norm whenever the
incoming quaternion does. -/
lemma Mechanize_q_normSq (s : Strapdown) (wb fb : Vec3) (dt : ℝ)
    (hq : s.q.normSq = 1) : (Mechanize s wb fb dt).q.normSq = 1 := by
  simp only [Mechanize]
  exact attitude_step_normSq _ s.q hq

/-- The quaternion produced by `euler2quat` has unit squared norm, being a
product of three elementary unit rotations. -/
lemma euler2quat_normSq (r p y : ℝ) : (euler2quat r p y).normSq = 1 := by
  have key : (euler2quat r p y).normSq =
      (Real.sin (r / 2) ^ 2 + Real.cos (r / 2) ^ 2) *
        ((Real.sin (p / 2) ^ 2 + Real.cos (p / 2) ^ 2) *
          (Real.sin (y / 2) ^ 2 + Real.cos (y / 2) ^ 2)) := by
    simp only [euler2quat, Quat.normSq]
    ring
  rw [key, Real.sin_sq_add_cos_sq, Real.sin_sq_add_cos_sq,
    Real.sin_sq_add_cos_sq]
  norm_num

/-- C1: after every `Mechanize` call the attitude quaternion has unit norm
(it is renormalized at the end of the attitude step) and the cached
rotation matrix equals the DCM of the current quaternion; both
`SetAttitude` overloads likewise leave `q_b_l_` and `C_b_l_` mutually
consistent, so no public operation returns with a stale pair. -/
theorem claim1_attitude_consistency (s : Strapdown) (wb fb : Vec3) (dt : ℝ)
    (roll pitch yaw : ℝ) (Cnew : Mat3) (hq : s.q.normSq = 1) :
    (Mechanize s wb fb dt).q.normSq = 1 ∧
    (Mechanize s wb fb dt).C = quat2dcm (Mechanize s wb fb dt).q ∧
    (SetAttitudeEuler s roll pitch yaw).q.normSq = 1 ∧
    (SetAttitudeEuler s roll pitch yaw).C =
      quat2dcm (SetAttitudeEuler s roll pitch yaw).q ∧
    (SetAttitudeDcm s Cnew).q = dcm2quat (SetAttitudeDcm s Cnew).C := by
  refine ⟨Mechanize_q_normSq s wb fb dt hq, ?_, euler2quat_normSq roll pitch yaw, rfl, rfl⟩
  simp only [Mechanize]

/-! Spec-side formulas (written from the design document's words, to be
compared with the embedded code). -/

/-- Coriolis angular rate from the spec: Earth rate plus twice the
transport rate, both evaluated at the pre-update state. -/
def weSpec (s : Strapdown) : Vec3 :=
  Vec3.add (EarthRateVector s.phi s.wieE)
    (Vec3.smul 2 (TransportRateVector s.phi s.h s.vn s.ve))

/-- Velocity delta from the spec: specific force rotated into the
local-level frame by the pre-attitude-update rotation matrix, plus
gravity, minus the Coriolis/transport cross terms, scaled by `dt`. -/
def dvSpec (s : Strapdown) (fb : Vec3) (dt : ℝ) : Vec3 :=
  ⟨((Mat3.mulVec s.C fb).x + (GravityVector s.phi s.h s.gE).x -
      ((weSpec s).y * s.vd - (weSpec s).z * s.ve)) * dt,
   ((Mat3.mulVec s.C fb).y + (GravityVector s.phi s.h s.gE).y -
      ((weSpec s).x * s.vd - (weSpec s).z * s.vn)) * dt,
   ((Mat3.mulVec s.C fb).z + (GravityVector s.phi s.h s.gE).z -
      ((weSpec s).x * s.ve - (weSpec s).y * s.vn)) * dt⟩

/-- Rotation-vector increment from the spec:
`psi = (wb − C_b_lᵀ·(ω_ie + ω_en))·dt` at the pre-update state. -/
def psiSpec (s : Strapdown) (wb : Vec3) (dt : ℝ) : Vec3 :=
  Vec3.smul dt (Vec3.sub wb (Mat3.mulVec s.C.transpose
    (Vec3.add (EarthRateVector s.phi s.wieE)
      (TransportRateVector s.phi s.h s.vn s.ve))))

/-- Half-angle from the spec: `gamma = 0.5·‖psi‖`. -/
def gammaSpec (s : Strapdown) (wb : Vec3) (dt : ℝ) : ℝ :=
  0.5 * (psiSpec s wb dt).norm

/-- Normalization `q/‖q‖` applied at the end of the attitude step. -/
def Quat.normalize (q : Quat) : Quat :=
  q.divScalar q.norm

/-- Transverse radius of curvature as the spec writes it:
`Re = R0/√(1 − e²·sin²φ)`. -/
def ReSpec (phi : ℝ) : ℝ :=
  WGS84_R0 / Real.sqrt (1 - WGS84_E2 * Real.sin phi ^ 2)

/-- Meridian radius of curvature as the spec writes it:
`Rn = R0·(1 − e²)/(1 − e²·sin²φ)^(3/2)`, the 3/2 power expressed as
`t·√t`. -/
def RnSpec (phi : ℝ) : ℝ :=
  WGS84_R0 * (1 - WGS84_E2) /
    ((1 - WGS84_E2 * Real.sin phi ^ 2) *
      Real.sqrt (1 - WGS84_E2 * Real.sin phi ^ 2))

/-- The ellipsoid subexpression `1 − e²·sin²φ` is positive for every
latitude, since `e² < 1` and `sin²φ ≤ 1`. -/
lemma tOf_pos (phi : ℝ) : 0 < tOf phi := by
  have hs : Real.sin phi ^ 2 ≤ 1 := Real.sin_sq_le_one phi
  simp only [tOf, WGS84_E2]
  nlinarith

/-- Key radical identity: `t·t/√t = t·√t` for positive `t`. -/
lemma div_sqrt_key (t : ℝ) (ht : 0 < t) :
    t * t / Real.sqrt t = t * Real.sqrt t := by
  have hs : 0 < Real.sqrt t := Real.sqrt_pos.2 ht
  have hsq : Real.sqrt t ^ 2 = t := Real.sq_sqrt ht.le
  rw [div_eq_iff (ne_of_gt hs)]
  nlinarith

/-- The transverse radius computed by `Mechanize` equals the spec's
closed form. -/
lemma Re_eq_spec (phi : ℝ) : Re_ phi = ReSpec phi := rfl

/-- The meridian radius computed by `Mechanize` (`R0·X1ME2/(t·t/√t)`)
equals the spec's closed form `R0·(1−e²)/t^(3/2)`. -/
lemma Rn_eq_spec (phi : ℝ) : Rn_ phi = RnSpec phi := by
  have ht : 0 < 1 - WGS84_E2 * Real.sin phi ^ 2 := by
    have := tOf_pos phi
    simpa [tOf] using this
  simp only [Rn_, RnSpec, X1ME2, sqtOf, tOf]
  rw [div_sqrt_key _ ht]

/-- C2: the velocity deltas of `Mechanize` rotate the specific force with
the pre-attitude-update rotation matrix, add gravity, subtract the
Coriolis/transport cross terms and scale by `dt`; the refreshed DCM and
the accumulated deltas are committed only at the end of the step. -/
theorem claim2_velocity_integration (s : Strapdown) (wb fb : Vec3) (dt : ℝ) :
    (Mechanize s wb fb dt).vn = s.vn + (dvSpec s fb dt).x ∧
    (Mechanize s wb fb dt).ve = s.ve + (dvSpec s fb dt).y ∧
    (Mechanize s wb fb dt).vd = s.vd + (dvSpec s fb dt).z ∧
    (Mechanize s wb fb dt).C = quat2dcm (Mechanize s wb fb dt).q := by
  refine ⟨?_, ?_, ?_, ?_⟩ <;> simp only [Mechanize, dvSpec, weSpec]

/-- C3: the attitude step branches exactly on the half-angle threshold
1e-5 rad — Rodrigues scaling `0.5·sin γ/γ` at or above it, first-order
scaling `0.5` below it — and both branches multiply the update matrix into
the current quaternion and renormalize. -/
theorem claim3_attitude_branches (s : Strapdown) (wb fb : Vec3) (dt : ℝ) :
    (1e-5 ≤ gammaSpec s wb dt →
      (Mechanize s wb fb dt).q =
        Quat.normalize
          (quatUpdate (Real.cos (gammaSpec s wb dt))
            (Vec3.smul (0.5 * Real.sin (gammaSpec s wb dt) / gammaSpec s wb dt)
              (psiSpec s wb dt)) s.q)) ∧
    (gammaSpec s wb dt < 1e-5 →
      (Mechanize s wb fb dt).q =
        Quat.normalize
          (quatUpdate (Real.cos (gammaSpec s wb dt))
            (Vec3.smul 0.5 (psiSpec s wb dt)) s.q)) := by
  constructor
  · intro hge
    simp only [gammaSpec, psiSpec] at hge
    simp only [Mechanize, Quat.normalize, gammaSpec, psiSpec]
    rw [if_neg (not_lt.2 hge)]
  · intro hlt
    simp only [gammaSpec, psiSpec] at hlt
    simp only [Mechanize, Quat.normalize, gammaSpec, psiSpec]
    rw [if_pos hlt]

/-- Witness for C3 at the level state with `dt = 0`, which falls in the
first-order (small-angle) branch. -/
theorem claim3_attitude_branches_witness :
    gammaSpec levelState zero3 0 < 1e-5 ∧
    (Mechanize levelState zero3 zero3 0).q =
      Quat.normalize
        (quatUpdate (Real.cos (gammaSpec levelState zero3 0))
          (Vec3.smul 0.5 (psiSpec levelState zero3 0)) levelState.q) := by
  have hlt : gammaSpec levelState zero3 0 < 1e-5 := by
    simp only [gammaSpec, psiSpec, Vec3.smul, Vec3.norm, Vec3.normSq]
    norm_num [Real.sqrt_zero]
  exact ⟨hlt, (claim3_attitude_branches levelState zero3 zero3 0).2 hlt⟩

/-- C4: position advances trapezoidally — latitude by
`(vn + 0.5·Δvn)/(Rn + h)·dt`, longitude by
`(ve + 0.5·Δve)/((Re + h)·cos φ)·dt`, altitude down by
`(vd + 0.5·Δvd)·dt` — with the spec's closed-form radii evaluated at the
pre-update state. -/
theorem claim4_position_trapezoidal (s : Strapdown) (wb fb : Vec3) (dt : ℝ) :
    (Mechanize s wb fb dt).phi =
      s.phi + (s.vn + 0.5 * (dvSpec s fb dt).x) / (RnSpec s.phi + s.h) * dt ∧
    (Mechanize s wb fb dt).lam =
      s.lam + (s.ve + 0.5 * (dvSpec s fb dt).y) /
        ((ReSpec s.phi + s.h) * Real.cos s.phi) * dt ∧
    (Mechanize s wb fb dt).h =
      s.h - (s.vd + 0.5 * (dvSpec s fb dt).z) * dt := by
  refine ⟨?_, ?_, ?_⟩
  · simp only [Mechanize, dvSpec, weSpec, Rn_eq_spec]
  · simp only [Mechanize, dvSpec, weSpec, Re_eq_spec]
  · simp only [Mechanize, dvSpec, weSpec]

/-- C5: the rate vectors consumed by the whole step are evaluated at the
pre-update state — the transport rate is
`[ve/(Re+h), −vn/(Rn+h), −ve·tanφ/(Re+h)]` at the pre-update velocity and
position, and the Coriolis term uses `we = ω_ie + 2·ω_en`. -/
theorem claim5_precomputed_rates (phi h vn ve : ℝ) (s : Strapdown)
    (wb fb : Vec3) (dt : ℝ) :
    TransportRateVector phi h vn ve =
      ⟨ve / (ReSpec phi + h), -vn / (RnSpec phi + h),
       -(ve * Real.tan phi) / (ReSpec phi + h)⟩ ∧
    (Mechanize s wb fb dt).vn =
      s.vn + ((Mat3.mulVec s.C fb).x + (GravityVector s.phi s.h s.gE).x -
        ((weSpec s).y * s.vd - (weSpec s).z * s.ve)) * dt ∧
    (Mechanize s wb fb dt).ve =
      s.ve + ((Mat3.mulVec s.C fb).y + (GravityVector s.phi s.h s.gE).y -
        ((weSpec s).x * s.vd - (weSpec s).z * s.vn)) * dt ∧
    (Mechanize s wb fb dt).vd =
      s.vd + ((Mat3.mulVec s.C fb).z + (GravityVector s.phi s.h s.gE).z -
        ((weSpec s).x * s.ve - (weSpec s).y * s.vn)) * dt := by
  refine ⟨?_, ?_, ?_, ?_⟩
  · simp only [TransportRateVector, Re_eq_spec, Rn_eq_spec, Vec3.mk.injEq]
    refine ⟨trivial, trivial, ?_⟩
    rw [Real.tan_eq_sin_div_cos]
    ring
  · simp only [Mechanize, weSpec]
  · simp only [Mechanize, weSpec]
  · simp only [Mechanize, weSpec]

/-- Witness for C1 at the level equatorial state with zero inputs. -/
theorem claim1_attitude_consistency_witness :
    levelState.q.normSq = 1 ∧
    ((Mechanize levelState zero3 zero3 1).q.normSq = 1 ∧
     (Mechanize levelState zero3 zero3 1).C =
       quat2dcm (Mechanize levelState zero3 zero3 1).q ∧
     (SetAttitudeEuler levelState 0 0 0).q.normSq = 1 ∧
     (SetAttitudeEuler levelState 0 0 0).C =
       quat2dcm (SetAttitudeEuler levelState 0 0 0).q ∧
     (SetAttitudeDcm levelState ⟨1, 0, 0, 0, 1, 0, 0, 0, 1⟩).q =
       dcm2quat (SetAttitudeDcm levelState ⟨1, 0, 0, 0, 1, 0, 0, 0, 1⟩).C) :=
  ⟨by norm_num [levelState, Quat.normSq],
   claim1_attitude_consistency levelState zero3 zero3 1 0 0 0
     ⟨1, 0, 0, 0, 1, 0, 0, 0, 1⟩ (by norm_num [levelState, Quat.normSq])⟩

/-- C6: with zero velocity, zero angular rate, and a specific force whose
local-level resolution exactly cancels gravity (the Coriolis terms vanish
at zero velocity, so every per-axis velocity delta is zero), `Mechanize`
leaves latitude, longitude, altitude and all three velocity components
unchanged — static equilibrium is a fixed point of each call. -/
theorem claim6_static_fixed_point (s : Strapdown) (fb : Vec3) (dt : ℝ)
    (hvn : s.vn = 0) (hve : s.ve = 0) (hvd : s.vd = 0)
    (hfb : Mat3.mulVec s.C fb =
      ⟨-(GravityVector s.phi s.h s.gE).x, -(GravityVector s.phi s.h s.gE).y,
       -(GravityVector s.phi s.h s.gE).z⟩) :
    (Mechanize s zero3 fb dt).phi = s.phi ∧
    (Mechanize s zero3 fb dt).lam = s.lam ∧
    (Mechanize s zero3 fb dt).h = s.h ∧
    (Mechanize s zero3 fb dt).vn = s.vn ∧
    (Mechanize s zero3 fb dt).ve = s.ve ∧
    (Mechanize s zero3 fb dt).vd = s.vd := by
  have hx : (Mat3.mulVec s.C fb).x = -(GravityVector s.phi s.h s.gE).x := by
    rw [hfb]
  have hy : (Mat3.mulVec s.C fb).y = -(GravityVector s.phi s.h s.gE).y := by
    rw [hfb]
  have hz : (Mat3.mulVec s.C fb).z = -(GravityVector s.phi s.h s.gE).z := by
    rw [hfb]
  refine ⟨?_, ?_, ?_, ?_, ?_, ?_⟩ <;>
    · simp only [Mechanize, hvn, hve, hvd, hx, hy, hz]
      ring

/-- Witness for C6 at the level equatorial state, with the specific force
that cancels gravity there. -/
theorem claim6_static_fixed_point_witness :
    (levelState.vn = 0 ∧ levelState.ve = 0 ∧ levelState.vd = 0 ∧
     Mat3.mulVec levelState.C ⟨0, 0, -9.7803253359⟩ =
       ⟨-(GravityVector levelState.phi levelState.h levelState.gE).x,
        -(GravityVector levelState.phi levelState.h levelState.gE).y,
        -(GravityVector levelState.phi levelState.h levelState.gE).z⟩) ∧
    ((Mechanize levelState zero3 ⟨0, 0, -9.7803253359⟩ 1).phi =
        levelState.phi ∧
     (Mechanize levelState zero3 ⟨0, 0, -9.7803253359⟩ 1).lam =
        levelState.lam ∧
     (Mechanize levelState zero3 ⟨0, 0, -9.7803253359⟩ 1).h = levelState.h ∧
     (Mechanize levelState zero3 ⟨0, 0, -9.7803253359⟩ 1).vn =
        levelState.vn ∧
     (Mechanize levelState zero3 ⟨0, 0, -9.7803253359⟩ 1).ve =
        levelState.ve ∧
     (Mechanize levelState zero3 ⟨0, 0, -9.7803253359⟩ 1).vd =
        levelState.vd) := by
  have hfb : Mat3.mulVec levelState.C ⟨0, 0, -9.7803253359⟩ =
      ⟨-(GravityVector levelState.phi levelState.h levelState.gE).x,
       -(GravityVector levelState.phi levelState.h levelState.gE).y,
       -(GravityVector levelState.phi levelState.h levelState.gE).z⟩ := by
    simp only [levelState, Mat3.mulVec, GravityVector, g0Of, sqtOf, tOf,
      Vec3.mk.injEq]
    norm_num [Real.sin_zero, Real.sqrt_one]
  exact ⟨⟨rfl, rfl, rfl, hfb⟩,
    claim6_static_fixed_point levelState ⟨0, 0, -9.7803253359⟩ 1
      rfl rfl rfl hfb⟩

/-- Latitude- and altitude-dependent correction factor multiplying the
Somigliana normal gravity in the spec's description of `GravityVector`. -/
def gravityCorr (phi h : ℝ) : ℝ :=
  1 - (2 * h / WGS84_R0) *
      (1 + WGS84_F * (1 - 2 * Real.sin phi ^ 2) + wR0sqRpMu) +
    3 * (h / WGS84_R0) ^ 2

/-- C7: `GravityVector` leaves the east component at its
constructor-initialized zero (it is never assigned), sets the north
component to `−8.08e-9·h·sin 2φ` (zero at `h = 0`), and sets the down
component to the Somigliana normal gravity times a latitude/altitude
correction factor. -/
theorem claim7_gravity_vector (phi h gE lat lon alt vn ve vd r p yw : ℝ)
    (s : Strapdown) (wb fb : Vec3) (dt : ℝ) :
    (GravityVector phi h gE).y = gE ∧
    (GravityVector phi h 0).y = 0 ∧
    (GravityVector phi h gE).x = -8.08e-9 * h * Real.sin (2 * phi) ∧
    (GravityVector phi 0 gE).x = 0 ∧
    (GravityVector phi h gE).z = g0Of phi * gravityCorr phi h ∧
    (StrapdownInit lat lon alt vn ve vd r p yw).gE = 0 ∧
    (Mechanize s wb fb dt).gE = s.gE := by
  refine ⟨rfl, rfl, rfl, ?_, rfl, rfl, rfl⟩
  simp only [GravityVector]
  ring

/-- C9: under the precondition `cos φ ≠ 0`, `Rn + h ≠ 0`, `Re + h ≠ 0`,
every divisor appearing in `Mechanize` — the tangent's `cos φ`, the
radical `√t` of `Re_`, the `t·t/√t` of `Rn_`, the transport-rate divisors
`Rn + h` and `Re + h`, and the longitude divisor `(Re + h)·cos φ` — is
nonzero. -/
theorem claim9_divisors_nonzero (phi h : ℝ) (hc : Real.cos phi ≠ 0)
    (hn : Rn_ phi + h ≠ 0) (he : Re_ phi + h ≠ 0) :
    Real.cos phi ≠ 0 ∧
    sqtOf phi ≠ 0 ∧
    tOf phi * tOf phi / sqtOf phi ≠ 0 ∧
    Rn_ phi + h ≠ 0 ∧
    Re_ phi + h ≠ 0 ∧
    (Re_ phi + h) * Real.cos phi ≠ 0 := by
  have ht : 0 < tOf phi := tOf_pos phi
  have hs : 0 < sqtOf phi := by
    simp only [sqtOf]
    exact Real.sqrt_pos.2 ht
  exact ⟨hc, ne_of_gt hs, ne_of_gt (div_pos (mul_pos ht ht) hs), hn, he,
    mul_ne_zero he hc⟩

/-- Witness for C9 at the equator at zero altitude. -/
theorem claim9_divisors_nonzero_witness :
    (Real.cos 0 ≠ 0 ∧ Rn_ 0 + 0 ≠ 0 ∧ Re_ 0 + 0 ≠ 0) ∧
    (Real.cos 0 ≠ 0 ∧
     sqtOf 0 ≠ 0 ∧
     tOf 0 * tOf 0 / sqtOf 0 ≠ 0 ∧
     Rn_ 0 + 0 ≠ 0 ∧
     Re_ 0 + 0 ≠ 0 ∧
     (Re_ 0 + 0) * Real.cos 0 ≠ 0) := by
  have hc : Real.cos 0 ≠ 0 := by norm_num [Real.cos_zero]
  have hn : Rn_ 0 + 0 ≠ 0 := by
    simp only [Rn_, X1ME2, sqtOf, tOf, WGS84_R0, WGS84_E2]
    norm_num [Real.sin_zero, Real.sqrt_one]
  have he : Re_ 0 + 0 ≠ 0 := by
    simp only [Re_, sqtOf, tOf, WGS84_R0, WGS84_E2]
    norm_num [Real.sin_zero, Real.sqrt_one]
  exact ⟨⟨hc, hn, he⟩, claim9_divisors_nonzero 0 0 hc hn he⟩

/-- Modelled from the spec: the body of `GaussNewton`
(`src/include/sturdins/least-squares.hpp` only declares it; its
implementation is not among the visible sources).  Following design §4.3
and §7: each iteration either fails because the weighted information
matrix is singular/ill-conditioned — `step` returns `none`, as happens in
particular with fewer than 4 usable satellites, where the stacked 2m×8
Jacobian has rank below 8 — or returns the updated estimate together with
the norm of the applied update.  The iteration returns `true` as soon as
an update norm falls below the convergence threshold `tol`, and returns
`false` — a status result, never an exception — when the iteration cap is
exhausted or a solve fails. -/
def GaussNewton {S : Type} (step : S → Option (S × ℝ)) (tol : ℝ) :
    Nat → S → Bool × S
  | 0, x => (false, x)
  | n + 1, x =>
    match step x with
    | none => (false, x)
    | some (x', d) =>
      if d < tol then (true, x') else GaussNewton step tol n x'

/-- A `true` result of `GaussNewton` can only arise from an iterate whose
update norm fell below the threshold. -/
lemma gaussNewton_true_of_conv {S : Type} (step : S → Option (S × ℝ))
    (tol : ℝ) :
    ∀ (n : Nat) (x : S), (GaussNewton step tol n x).1 = true →
      ∃ y y' d, step y = some (y', d) ∧ d < tol := by
  intro n
  induction n with
  | zero =>
    intro x hx
    simp [GaussNewton] at hx
  | succ m ih =>
    intro x hx
    cases hstep : step x with
    | none => simp [GaussNewton, hstep] at hx
    | some p =>
      obtain ⟨x', d⟩ := p
      simp only [GaussNewton, hstep] at hx
      by_cases hd : d < tol
      · exact ⟨x, x', d, hstep, hd⟩
      · rw [if_neg hd] at hx
        exact ih x' hx

/-- C8: `GaussNewton` reports failure through its boolean result — `false`
when the iteration cap is exhausted without convergence or when the
information-matrix solve fails (in particular with fewer than 4 usable
satellites), and `true` only when an update norm fell below the
convergence threshold. -/
theorem claim8_gaussnewton_status {S : Type} (step : S → Option (S × ℝ))
    (tol : ℝ) (n : Nat) (x : S) :
    (GaussNewton step tol 0 x).1 = false ∧
    (step x = none → (GaussNewton step tol (n + 1) x).1 = false) ∧
    ((GaussNewton step tol n x).1 = true →
      ∃ y y' d, step y = some (y', d) ∧ d < tol) := by
  refine ⟨rfl, ?_, gaussNewton_true_of_conv step tol n x⟩
  intro hnone
  simp [GaussNewton, hnone]

/-- Singular step: the normal-equation solve fails at every estimate, as
with fewer than 4 usable satellites. -/
def stepSingular : ℕ → Option (ℕ × ℝ) := fun _ => none

/-- Converging step: the solve succeeds with a zero-norm update. -/
def stepConverging : ℕ → Option (ℕ × ℝ) := fun k => some (k, 0)

/-- Witness for C8: the singular step yields `false`, and a run that
returns `true` exhibits a converged iterate. -/
theorem claim8_gaussnewton_status_witness :
    (stepSingular 0 = none ∧ (GaussNewton stepSingular 1 1 0).1 = false) ∧
    ((GaussNewton stepConverging 1 1 0).1 = true ∧
     ∃ y y' d, stepConverging y = some (y', d) ∧ d < 1) := by
  have htrue : (GaussNewton stepConverging 1 1 0).1 = true := by
    show (GaussNewton stepConverging 1 (0 + 1) 0).1 = true
    simp only [GaussNewton, stepConverging]
    rw [if_pos (by norm_num : (0 : ℝ) < 1)]
  refine ⟨⟨rfl, (claim8_gaussnewton_status stepSingular 1 0 0).2.1 rfl⟩,
    htrue, (claim8_gaussnewton_status stepConverging 1 1 0).2.2 htrue⟩

/-- Two's-complement bitwise NOT on a C `int`: `~x = −(x + 1)`. -/
def bitNot (x : ℤ) : ℤ := -(x + 1)

/-- Guard expression `~(i % 20)` of the GNSS-update branch in the main
loop of `test_sim_ins.cpp`, for the non-negative loop counter `i`. -/
def gnssUpdateGuard (i : ℕ) : ℤ := bitNot ((i : ℤ) % 20)

/-- C10: the guard `~(i % 20)` is nonzero — hence truthy — for every
non-negative loop counter, because `i % 20` lies in `0..19` and its
bitwise complement lies in `−20..−1`; the GNSS-update branch therefore
executes on every single loop iteration, not once every 20. -/
theorem claim10_guard_always_taken (i : ℕ) : gnssUpdateGuard i ≠ 0 := by
  simp only [gnssUpdateGuard, bitNot]
  omega

end Sturdins
